import Mathlib

/-!
Verification of the ddns-rust record reconciliation core.

The remote Cloudflare HTTP API is modelled as an environment `Env` that
supplies the response to each of the three possible remote calls (lookup,
create, update).  Every embedded function returns, next to its result, the
ordered list of outbound API calls it issued, so that trace properties
(at most one write per reconciliation, no call after a failure, ...) are
statable.  Transport-level failures (send or body-parse errors, which the
source wraps with `context(...)`) appear as `Except.error` responses in the
environment carrying the context message.
-/

/-- Mirrors `config::ProviderConfig` (src/config.rs). -/
structure ProviderConfig where
  name : String
  provider_type : String
  key : Option String
  api_key : String
  zone_id : String
deriving DecidableEq

/-- Mirrors `config::Config` restricted to what the handler uses
(src/config.rs); the server section is irrelevant to reconciliation. -/
structure Config where
  providers : List ProviderConfig
deriving DecidableEq

/-- Mirrors `Config::get_provider` (src/config.rs): first provider whose
name matches. -/
def Config.get_provider (c : Config) (name : String) : Option ProviderConfig :=
  c.providers.find? (fun p => p.name == name)

/-- Mirrors `cloudflare::DnsRecord` (src/provider/cloudflare.rs). -/
structure DnsRecord where
  id : String
  record_type : String
  name : String
  content : String
deriving DecidableEq

/-- Mirrors `cloudflare::CloudflareError` (src/provider/cloudflare.rs). -/
structure CloudflareError where
  code : Int
  message : String
deriving DecidableEq

/-- Mirrors `cloudflare::CloudflareListResponse`: envelope of the lookup
(GET) call; `result` is a list of records. -/
structure CloudflareListResponse where
  success : Bool
  errors : List CloudflareError
  result : List DnsRecord
deriving DecidableEq

/-- Mirrors `cloudflare::CloudflareResponse`: envelope of the write (POST
and PUT) calls; `result` is an optional single record. -/
structure CloudflareResponse where
  success : Bool
  errors : List CloudflareError
  result : Option DnsRecord
deriving DecidableEq

/-- Mirrors `cloudflare::CreateRecordRequest` (serialized POST body). -/
structure CreateRecordRequest where
  record_type : String
  name : String
  content : String
  ttl : Nat
  proxied : Bool
deriving DecidableEq

/-- Mirrors `cloudflare::UpdateRecordRequest` (serialized PUT body). -/
structure UpdateRecordRequest where
  record_type : String
  name : String
  content : String
  ttl : Nat
  proxied : Bool
deriving DecidableEq

/-- Mirrors `provider::DnsUpdateResult` (src/provider/mod.rs). -/
structure DnsUpdateResult where
  success : Bool
  message : String
  record_id : Option String
deriving DecidableEq

/-- One outbound HTTP call to the provider API, with the exact URL and,
for writes, the exact JSON body the source builds. -/
inductive ApiCall where
  | lookup (url : String)
  | create (url : String) (body : CreateRecordRequest)
  | update (url : String) (body : UpdateRecordRequest)
deriving DecidableEq

instance {ε α : Type} [DecidableEq ε] [DecidableEq α] : DecidableEq (Except ε α) := fun x y =>
  match x, y with
  | .error a, .error b =>
    if h : a = b then isTrue (by rw [h]) else isFalse (by simp [h])
  | .ok a, .ok b =>
    if h : a = b then isTrue (by rw [h]) else isFalse (by simp [h])
  | .error _, .ok _ => isFalse (by simp)
  | .ok _, .error _ => isFalse (by simp)

/-- The remote provider, as an oracle: what each of the three possible
calls would come back with.  `Except.error` models a transport failure
(failed send or unparsable body) carrying the context message the source
attaches. -/
structure Env where
  listResp : Except String CloudflareListResponse
  createResp : Except String CloudflareResponse
  updateResp : Except String CloudflareResponse
deriving DecidableEq

/-- Mirrors the constant `CLOUDFLARE_API_BASE` (src/provider/cloudflare.rs). -/
def CLOUDFLARE_API_BASE : String := "https://api.cloudflare.com/client/v4"

/-- The error message built by the `!response.success` arms of
`get_record`, `create_record` and `update_existing_record`:
`format!("Cloudflare API error: {}", errors.join(", "))` where each error
renders as `format!("{}: {}", e.code, e.message)`. -/
def cloudflareApiError (errors : List CloudflareError) : String :=
  "Cloudflare API error: " ++
    String.intercalate ", " (errors.map (fun e => toString e.code ++ ": " ++ e.message))

/-- Mirrors `cloudflare::get_record`: GET
`{base}/zones/{zone_id}/dns_records?type=A&name={host}`; on a
backend-reported failure bail with the concatenated errors, otherwise
return the first record of the result list if any
(`response.result.into_iter().next()`). -/
def get_record (env : Env) (config : ProviderConfig) (host : String) :
    Except String (Option DnsRecord) × List ApiCall :=
  let url := CLOUDFLARE_API_BASE ++ "/zones/" ++ config.zone_id ++ "/dns_records?type=A&name=" ++ host
  let res : Except String (Option DnsRecord) :=
    match env.listResp with
    | .error e => .error e
    | .ok response =>
      if !response.success then
        .error (cloudflareApiError response.errors)
      else
        .ok response.result.head?
  (res, [ApiCall.lookup url])

/-- Mirrors `cloudflare::create_record`: POST
`{base}/zones/{zone_id}/dns_records` with body
`{type:"A", name:host, content:ip, ttl:1, proxied:false}`; bail on a
backend-reported failure, and fail with "No result in Cloudflare response"
when the envelope carries no record. -/
def create_record (env : Env) (config : ProviderConfig) (host ip : String) :
    Except String DnsRecord × List ApiCall :=
  let url := CLOUDFLARE_API_BASE ++ "/zones/" ++ config.zone_id ++ "/dns_records"
  let body : CreateRecordRequest :=
    { record_type := "A", name := host, content := ip, ttl := 1, proxied := false }
  let res : Except String DnsRecord :=
    match env.createResp with
    | .error e => .error e
    | .ok response =>
      if !response.success then
        .error (cloudflareApiError response.errors)
      else
        match response.result with
        | some r => .ok r
        | none => .error "No result in Cloudflare response"
  (res, [ApiCall.create url body])

/-- Mirrors `cloudflare::update_existing_record`: PUT
`{base}/zones/{zone_id}/dns_records/{record_id}` with body
`{type:"A", name:host, content:ip, ttl:1, proxied:false}`; same envelope
handling as `create_record`. -/
def update_existing_record (env : Env) (config : ProviderConfig)
    (record_id host ip : String) :
    Except String DnsRecord × List ApiCall :=
  let url := CLOUDFLARE_API_BASE ++ "/zones/" ++ config.zone_id ++ "/dns_records/" ++ record_id
  let body : UpdateRecordRequest :=
    { record_type := "A", name := host, content := ip, ttl := 1, proxied := false }
  let res : Except String DnsRecord :=
    match env.updateResp with
    | .error e => .error e
    | .ok response =>
      if !response.success then
        .error (cloudflareApiError response.errors)
      else
        match response.result with
        | some r => .ok r
        | none => .error "No result in Cloudflare response"
  (res, [ApiCall.update url body])

/-- Mirrors `cloudflare::update_record`: look the record up; if it exists
with the requested IP, report "already up to date"; if it exists with a
different IP, PUT an update addressed by its id; otherwise POST a create.
Errors of the inner calls propagate (`?`), with the calls already issued
kept in the trace. -/
def update_record (env : Env) (config : ProviderConfig) (host ip : String) :
    Except String DnsUpdateResult × List ApiCall :=
  let looked := get_record env config host
  match looked.1 with
  | .error e => (.error e, looked.2)
  | .ok (some existing) =>
    if existing.content == ip then
      (.ok { success := true,
             message := "Record already up to date with IP " ++ ip,
             record_id := some existing.id }, looked.2)
    else
      let upd := update_existing_record env config existing.id host ip
      match upd.1 with
      | .error e => (.error e, looked.2 ++ upd.2)
      | .ok record =>
        (.ok { success := true,
               message := "Updated record " ++ host ++ " to IP " ++ ip,
               record_id := some record.id }, looked.2 ++ upd.2)
  | .ok none =>
    let cr := create_record env config host ip
    match cr.1 with
    | .error e => (.error e, looked.2 ++ cr.2)
    | .ok record =>
      (.ok { success := true,
             message := "Created new record " ++ host ++ " with IP " ++ ip,
             record_id := some record.id }, looked.2 ++ cr.2)

/-- Numeric value of a digit string (used by the IPv4 octet check). -/
def octetVal (cs : List Char) : Nat :=
  cs.foldl (fun a c => a * 10 + (c.toNat - 48)) 0

/-- Split a character list on the dot separator; like Rust's `split('.')`,
the empty input yields one empty group and a trailing dot yields a final
empty group. -/
def splitOnDot (cs : List Char) : List (List Char) :=
  match cs with
  | [] => [[]]
  | c :: rest =>
    let r := splitOnDot rest
    if c = '.' then [] :: r
    else
      match r with
      | [] => [[c]]
      | g :: gs => (c :: g) :: gs

/-- One dotted-quad group as accepted by Rust's `Ipv4Addr` parser: one to
three decimal digits, no leading zero unless the group is exactly "0",
value at most 255. -/
def isValidOctet (cs : List Char) : Bool :=
  decide (1 ≤ cs.length) && decide (cs.length ≤ 3) &&
  cs.all Char.isDigit &&
  (decide (cs.length = 1) || decide (cs.head? ≠ some '0')) &&
  decide (octetVal cs ≤ 255)

/-- Mirrors `api::is_valid_ipv4`: `ip.parse::<Ipv4Addr>().is_ok()` —
exactly four groups separated by dots, each a valid octet. -/
def is_valid_ipv4 (ip : String) : Bool :=
  let parts := splitOnDot ip.data
  decide (parts.length = 4) && parts.all isValidOctet

/-- HTTP status codes the handler can answer with. -/
inductive HttpStatus where
  | ok
  | badRequest
  | notFound
  | unauthorized
  | internalServerError
deriving DecidableEq

/-- Mirrors `api::ApiResponse` (success body of the handler). -/
structure ApiResponse where
  success : Bool
  message : String
  record_id : Option String
deriving DecidableEq

/-- Mirrors `api::ErrorResponse` (error body of the handler). -/
structure ErrorResponse where
  success : Bool
  error : String
deriving DecidableEq

/-- The JSON body of a handler response: either the success shape or the
error shape. -/
inductive HttpBody where
  | api (r : ApiResponse)
  | err (r : ErrorResponse)
deriving DecidableEq

/-- Mirrors `api::UpdateQuery`: the optional `key` query parameter. -/
structure UpdateQuery where
  key : Option String
deriving DecidableEq

/-- Everything observable about one run of the handler: the HTTP answer,
the outbound provider calls, and whether a reconciliation engine was
invoked at all. -/
structure UpdateDnsOutcome where
  status : HttpStatus
  body : HttpBody
  calls : List ApiCall
  engine_invoked : Bool
deriving DecidableEq

/-- The access-key check of `api::update_dns`: when the provider
configuration carries a key, the request key (absent treated as `""`,
via `as_deref().unwrap_or("")`) must equal it exactly. -/
def keyAccepted (pc : ProviderConfig) (query : UpdateQuery) : Bool :=
  match pc.key with
  | some config_key => query.key.getD "" == config_key
  | none => true

/-- Mirrors `api::update_dns` (src/api.rs): validate the IP, resolve the
provider by name, verify the access key, then dispatch on
`provider_type` — `"cloudflare"` runs `update_record`, anything else is
rejected as unsupported before any network call. -/
def update_dns (env : Env) (config : Config) (provider_name host ip : String)
    (query : UpdateQuery) : UpdateDnsOutcome :=
  if !is_valid_ipv4 ip then
    { status := .badRequest,
      body := .err { success := false, error := "Invalid IP address: " ++ ip },
      calls := [], engine_invoked := false }
  else
    match config.get_provider provider_name with
    | none =>
      { status := .notFound,
        body := .err { success := false, error := "Provider not found: " ++ provider_name },
        calls := [], engine_invoked := false }
    | some provider_config =>
      if !keyAccepted provider_config query then
        { status := .unauthorized,
          body := .err { success := false, error := "Invalid key" },
          calls := [], engine_invoked := false }
      else if provider_config.provider_type == "cloudflare" then
        let r := update_record env provider_config host ip
        match r.1 with
        | .ok result =>
          { status := .ok,
            body := .api { success := result.success, message := result.message,
                           record_id := result.record_id },
            calls := r.2, engine_invoked := true }
        | .error e =>
          { status := .internalServerError,
            body := .err { success := false, error := "DNS update failed: " ++ e },
            calls := r.2, engine_invoked := true }
      else
        { status := .badRequest,
          body := .err { success := false,
                         error := "Unsupported provider type: " ++ provider_config.provider_type },
          calls := [], engine_invoked := false }

/-- A call is an outbound write when it is a create or an update. -/
def ApiCall.isWrite : ApiCall → Bool
  | .lookup _ => false
  | .create _ _ => true
  | .update _ _ => true

/-- A call is a create. -/
def ApiCall.isCreate : ApiCall → Bool
  | .create _ _ => true
  | _ => false

/-- A call is an update. -/
def ApiCall.isUpdate : ApiCall → Bool
  | .update _ _ => true
  | _ => false

/-- Number of outbound writes in a trace. -/
def writeCount (calls : List ApiCall) : Nat :=
  (calls.filter ApiCall.isWrite).length

/-- The trace contains a create call. -/
def hasCreate (calls : List ApiCall) : Bool :=
  calls.any ApiCall.isCreate

/-- The trace contains an update call. -/
def hasUpdate (calls : List ApiCall) : Bool :=
  calls.any ApiCall.isUpdate

/-- `needle` occurs contiguously inside `haystack`. -/
def containsStr (haystack needle : String) : Prop :=
  needle.data <:+: haystack.data

instance (h n : String) : Decidable (containsStr h n) :=
  inferInstanceAs (Decidable (n.data <:+: h.data))

/-! Helper lemmas shared by the claim theorems. -/

theorem containsStr_of_left {a n : String} (b : String) (h : containsStr a n) :
    containsStr (a ++ b) n := by
  obtain ⟨s, t, hst⟩ := h
  exact ⟨s, t ++ b.data, by rw [String.data_append, ← hst]; simp⟩

theorem containsStr_of_right (a b : String) : containsStr (a ++ b) b :=
  ⟨a.data, [], by rw [String.data_append]; simp⟩

theorem get_record_snd (env : Env) (config : ProviderConfig) (host : String) :
    (get_record env config host).2 =
      [ApiCall.lookup (CLOUDFLARE_API_BASE ++ "/zones/" ++ config.zone_id ++
        "/dns_records?type=A&name=" ++ host)] := rfl

theorem create_record_snd (env : Env) (config : ProviderConfig) (host ip : String) :
    (create_record env config host ip).2 =
      [ApiCall.create (CLOUDFLARE_API_BASE ++ "/zones/" ++ config.zone_id ++ "/dns_records")
        { record_type := "A", name := host, content := ip, ttl := 1, proxied := false }] := rfl

theorem update_existing_record_snd (env : Env) (config : ProviderConfig)
    (record_id host ip : String) :
    (update_existing_record env config record_id host ip).2 =
      [ApiCall.update (CLOUDFLARE_API_BASE ++ "/zones/" ++ config.zone_id ++
          "/dns_records/" ++ record_id)
        { record_type := "A", name := host, content := ip, ttl := 1, proxied := false }] := rfl

theorem get_record_fst_ok (env : Env) (config : ProviderConfig) (host : String)
    (resp : CloudflareListResponse) (henv : env.listResp = .ok resp)
    (hsucc : resp.success = true) :
    (get_record env config host).1 = .ok resp.result.head? := by
  simp [get_record, henv, hsucc]

theorem get_record_fst_apierr (env : Env) (config : ProviderConfig) (host : String)
    (resp : CloudflareListResponse) (henv : env.listResp = .ok resp)
    (hfail : resp.success = false) :
    (get_record env config host).1 = .error (cloudflareApiError resp.errors) := by
  simp [get_record, henv, hfail]

theorem update_existing_record_fst_ok (env : Env) (config : ProviderConfig)
    (record_id host ip : String) (wr : CloudflareResponse) (record : DnsRecord)
    (h1 : env.updateResp = .ok wr) (h2 : wr.success = true) (h3 : wr.result = some record) :
    (update_existing_record env config record_id host ip).1 = .ok record := by
  simp [update_existing_record, h1, h2, h3]

theorem update_existing_record_fst_noresult (env : Env) (config : ProviderConfig)
    (record_id host ip : String) (wr : CloudflareResponse)
    (h1 : env.updateResp = .ok wr) (h2 : wr.success = true) (h3 : wr.result = none) :
    (update_existing_record env config record_id host ip).1 =
      .error "No result in Cloudflare response" := by
  simp [update_existing_record, h1, h2, h3]

theorem create_record_fst_ok (env : Env) (config : ProviderConfig)
    (host ip : String) (wr : CloudflareResponse) (record : DnsRecord)
    (h1 : env.createResp = .ok wr) (h2 : wr.success = true) (h3 : wr.result = some record) :
    (create_record env config host ip).1 = .ok record := by
  simp [create_record, h1, h2, h3]

theorem create_record_fst_noresult (env : Env) (config : ProviderConfig)
    (host ip : String) (wr : CloudflareResponse)
    (h1 : env.createResp = .ok wr) (h2 : wr.success = true) (h3 : wr.result = none) :
    (create_record env config host ip).1 =
      .error "No result in Cloudflare response" := by
  simp [create_record, h1, h2, h3]

/-! Concrete fixtures used by witnesses and counterexamples. -/

def cfgMain : ProviderConfig :=
  { name := "cf", provider_type := "cloudflare", key := some "secret",
    api_key := "token", zone_id := "Z" }

def cfgNope : ProviderConfig :=
  { name := "cf", provider_type := "nope", key := some "secret",
    api_key := "token", zone_id := "Z" }

def recAbc : DnsRecord :=
  { id := "abc", record_type := "A", name := "home.example.com", content := "1.1.1.1" }

def recAbcNew : DnsRecord :=
  { id := "abc", record_type := "A", name := "home.example.com", content := "2.2.2.2" }

def recXyz : DnsRecord :=
  { id := "xyz", record_type := "A", name := "home.example.com", content := "2.2.2.2" }

def recFresh : DnsRecord :=
  { id := "new1", record_type := "A", name := "home.example.com", content := "2.2.2.2" }

def respFound : CloudflareListResponse :=
  { success := true, errors := [], result := [recAbc] }

def respEmpty : CloudflareListResponse :=
  { success := true, errors := [], result := [] }

def respFailed : CloudflareListResponse :=
  { success := false,
    errors := [{ code := 9103, message := "Unknown X-Auth-Key" },
               { code := 10000, message := "Authentication error" }],
    result := [] }

def wrEcho : CloudflareResponse :=
  { success := true, errors := [], result := some recAbcNew }

def wrRenamed : CloudflareResponse :=
  { success := true, errors := [], result := some recXyz }

def wrFresh : CloudflareResponse :=
  { success := true, errors := [], result := some recFresh }

def wrEmptyRes : CloudflareResponse :=
  { success := true, errors := [], result := none }

def envIdle : Env :=
  { listResp := .ok respFound, createResp := .error "unused", updateResp := .error "unused" }

def envEcho : Env :=
  { listResp := .ok respFound, createResp := .error "unused", updateResp := .ok wrEcho }

def envRenamed : Env :=
  { listResp := .ok respFound, createResp := .error "unused", updateResp := .ok wrRenamed }

def envCreate : Env :=
  { listResp := .ok respEmpty, createResp := .ok wrFresh, updateResp := .error "unused" }

def envLookupFail : Env :=
  { listResp := .ok respFailed, createResp := .error "unused", updateResp := .error "unused" }

def envNoResult : Env :=
  { listResp := .ok respEmpty, createResp := .ok wrEmptyRes, updateResp := .error "unused" }

/-- C1: for every reconciliation call (any provider oracle, configuration,
hostname and target address), at most one outbound write (create or
update) is issued, no execution issues both a create and an update, and
whenever the looked-up record's current content equals the target address
zero writes are issued. -/
theorem update_record_at_most_one_write (env : Env) (config : ProviderConfig)
    (host ip : String) :
    writeCount (update_record env config host ip).2 ≤ 1 ∧
    ¬(hasCreate (update_record env config host ip).2 = true ∧
      hasUpdate (update_record env config host ip).2 = true) ∧
    (∀ resp r, env.listResp = .ok resp → resp.success = true →
      resp.result.head? = some r → r.content = ip →
      writeCount (update_record env config host ip).2 = 0) := by
  simp only [update_record]
  cases hres : (get_record env config host).1 with
  | error e =>
    refine ⟨?_, ?_, ?_⟩
    · simp [get_record_snd, writeCount, ApiCall.isWrite]
    · simp [get_record_snd, hasCreate, hasUpdate, ApiCall.isCreate, ApiCall.isUpdate]
    · intro resp r h1 h2 h3 h4
      have hok := get_record_fst_ok env config host resp h1 h2
      rw [hres] at hok
      simp at hok
  | ok o =>
    cases o with
    | none =>
      cases hcr : (create_record env config host ip).1 with
      | error e =>
        refine ⟨?_, ?_, ?_⟩
        · simp [hcr, get_record_snd, create_record_snd, writeCount, ApiCall.isWrite]
        · simp [hcr, get_record_snd, create_record_snd, hasCreate, hasUpdate,
            ApiCall.isCreate, ApiCall.isUpdate]
        · intro resp r h1 h2 h3 h4
          have hok := get_record_fst_ok env config host resp h1 h2
          rw [hres, h3] at hok
          simp at hok
      | ok record =>
        refine ⟨?_, ?_, ?_⟩
        · simp [hcr, get_record_snd, create_record_snd, writeCount, ApiCall.isWrite]
        · simp [hcr, get_record_snd, create_record_snd, hasCreate, hasUpdate,
            ApiCall.isCreate, ApiCall.isUpdate]
        · intro resp r h1 h2 h3 h4
          have hok := get_record_fst_ok env config host resp h1 h2
          rw [hres, h3] at hok
          simp at hok
    | some existing =>
      cases hc : existing.content == ip with
      | true =>
        refine ⟨?_, ?_, ?_⟩
        · simp [hc, get_record_snd, writeCount, ApiCall.isWrite]
        · simp [hc, get_record_snd, hasCreate, hasUpdate, ApiCall.isCreate, ApiCall.isUpdate]
        · intro resp r h1 h2 h3 h4
          simp [hc, get_record_snd, writeCount, ApiCall.isWrite]
      | false =>
        cases hup : (update_existing_record env config existing.id host ip).1 with
        | error e =>
          refine ⟨?_, ?_, ?_⟩
          · simp [hc, hup, get_record_snd, update_existing_record_snd, writeCount,
              ApiCall.isWrite]
          · simp [hc, hup, get_record_snd, update_existing_record_snd, hasCreate, hasUpdate,
              ApiCall.isCreate, ApiCall.isUpdate]
          · intro resp r h1 h2 h3 h4
            have hok := get_record_fst_ok env config host resp h1 h2
            rw [hres, h3] at hok
            simp at hok
            subst hok
            simp [h4] at hc
        | ok record =>
          refine ⟨?_, ?_, ?_⟩
          · simp [hc, hup, get_record_snd, update_existing_record_snd, writeCount,
              ApiCall.isWrite]
          · simp [hc, hup, get_record_snd, update_existing_record_snd, hasCreate, hasUpdate,
              ApiCall.isCreate, ApiCall.isUpdate]
          · intro resp r h1 h2 h3 h4
            have hok := get_record_fst_ok env config host resp h1 h2
            rw [hres, h3] at hok
            simp at hok
            subst hok
            simp [h4] at hc

/-- C1 witness: on a concrete environment whose looked-up record already
carries the target address, the reconciliation issues zero writes. -/
theorem update_record_at_most_one_write_witness :
    writeCount (update_record envIdle cfgMain "home.example.com" "1.1.1.1").2 = 0 :=
  (update_record_at_most_one_write envIdle cfgMain "home.example.com" "1.1.1.1").2.2
    respFound recAbc rfl rfl rfl rfl

/-- C2: when the lookup finds an existing record whose content equals the
target address, `update_record` succeeds with no write: the result is
`success = true` with the record's identifier and the
"already up to date" message, and the lookup is the only call issued. -/
theorem update_record_already_up_to_date (env : Env) (config : ProviderConfig)
    (host ip : String) (resp : CloudflareListResponse) (r : DnsRecord)
    (henv : env.listResp = .ok resp) (hsucc : resp.success = true)
    (hr : resp.result.head? = some r) (hc : r.content = ip) :
    (update_record env config host ip).1 =
      .ok { success := true,
            message := "Record already up to date with IP " ++ ip,
            record_id := some r.id } ∧
    (update_record env config host ip).2 =
      [ApiCall.lookup (CLOUDFLARE_API_BASE ++ "/zones/" ++ config.zone_id ++
        "/dns_records?type=A&name=" ++ host)] ∧
    containsStr ("Record already up to date with IP " ++ ip) "already up to date" := by
  have hok := get_record_fst_ok env config host resp henv hsucc
  rw [hr] at hok
  refine ⟨?_, ?_, ?_⟩
  · simp [update_record, hok, hc, get_record_snd]
  · simp [update_record, hok, hc, get_record_snd]
  · exact containsStr_of_left _ (by decide)

/-- C2 witness: concrete scenario — existing record `abc` at `1.1.1.1`,
target `1.1.1.1`; only the lookup occurs and the result reports the
record as already up to date. -/
theorem update_record_already_up_to_date_witness :
    (update_record envIdle cfgMain "home.example.com" "1.1.1.1").1 =
      .ok { success := true,
            message := "Record already up to date with IP 1.1.1.1",
            record_id := some "abc" } ∧
    (update_record envIdle cfgMain "home.example.com" "1.1.1.1").2 =
      [ApiCall.lookup
        "https://api.cloudflare.com/client/v4/zones/Z/dns_records?type=A&name=home.example.com"] ∧
    containsStr "Record already up to date with IP 1.1.1.1" "already up to date" :=
  update_record_already_up_to_date envIdle cfgMain "home.example.com" "1.1.1.1"
    respFound recAbc rfl rfl rfl rfl

/-- C3 counterexample: lookup finds record `abc` with content `1.1.1.1`,
target is `2.2.2.2`, and the provider's update response carries a record
with id `xyz`.  The single update call is correctly addressed to `abc`
with the exact body, yet the returned `record_id` is `xyz`, taken from
the update response — not the unchanged identifier `abc` the claim
requires. -/
theorem update_record_update_returns_response_id_cex :
    (update_record envRenamed cfgMain "home.example.com" "2.2.2.2").2 =
      [ApiCall.lookup
        "https://api.cloudflare.com/client/v4/zones/Z/dns_records?type=A&name=home.example.com",
       ApiCall.update "https://api.cloudflare.com/client/v4/zones/Z/dns_records/abc"
        { record_type := "A", name := "home.example.com", content := "2.2.2.2",
          ttl := 1, proxied := false }] ∧
    (update_record envRenamed cfgMain "home.example.com" "2.2.2.2").1 =
      .ok { success := true, message := "Updated record home.example.com to IP 2.2.2.2",
            record_id := some "xyz" } ∧
    (update_record envRenamed cfgMain "home.example.com" "2.2.2.2").1 ≠
      .ok { success := true, message := "Updated record home.example.com to IP 2.2.2.2",
            record_id := some "abc" } := by
  refine ⟨by decide, by decide, by decide⟩

/-- C3 (amended): when the lookup finds a record whose content differs
from the target, exactly one update call is issued, addressed by that
record's identifier with the exact body
`{type:"A", name:host, content:ip, ttl:1, proxied:false}`, and no create
call is issued; when the update response succeeds and carries a result
record, the call returns `success = true` with a message containing
"Updated" and `record_id` equal to the identifier of the record in the
update response (which equals the looked-up identifier whenever the
provider echoes the addressed record). -/
theorem update_record_update_branch (env : Env) (config : ProviderConfig)
    (host ip : String) (resp : CloudflareListResponse) (existing : DnsRecord)
    (henv : env.listResp = .ok resp) (hsucc : resp.success = true)
    (hr : resp.result.head? = some existing) (hne : existing.content ≠ ip) :
    (update_record env config host ip).2 =
      [ApiCall.lookup (CLOUDFLARE_API_BASE ++ "/zones/" ++ config.zone_id ++
          "/dns_records?type=A&name=" ++ host),
       ApiCall.update (CLOUDFLARE_API_BASE ++ "/zones/" ++ config.zone_id ++
          "/dns_records/" ++ existing.id)
        { record_type := "A", name := host, content := ip, ttl := 1, proxied := false }] ∧
    hasCreate (update_record env config host ip).2 = false ∧
    (∀ wr record, env.updateResp = .ok wr → wr.success = true → wr.result = some record →
      (update_record env config host ip).1 =
        .ok { success := true,
              message := "Updated record " ++ host ++ " to IP " ++ ip,
              record_id := some record.id } ∧
      containsStr ("Updated record " ++ host ++ " to IP " ++ ip) "Updated") := by
  have hok := get_record_fst_ok env config host resp henv hsucc
  rw [hr] at hok
  have hbeq : (existing.content == ip) = false := by simp [hne]
  refine ⟨?_, ?_, ?_⟩
  · cases hup : (update_existing_record env config existing.id host ip).1 <;>
      simp [update_record, hok, hbeq, hup, get_record_snd, update_existing_record_snd]
  · cases hup : (update_existing_record env config existing.id host ip).1 <;>
      simp [update_record, hok, hbeq, hup, get_record_snd, update_existing_record_snd,
        hasCreate, ApiCall.isCreate]
  · intro wr record h1 h2 h3
    have hupok := update_existing_record_fst_ok env config existing.id host ip wr record h1 h2 h3
    refine ⟨?_, ?_⟩
    · simp [update_record, hok, hbeq, hupok]
    · exact containsStr_of_left _ (containsStr_of_left _ (containsStr_of_left _ (by decide)))

/-- C3 witness: the spec's concrete scenario, with the provider echoing
the addressed record — record `abc` at `1.1.1.1`, target `2.2.2.2`:
lookup then one update addressed to `abc` with the exact body, and the
result reports `Updated` with recordId `abc`. -/
theorem update_record_update_branch_witness :
    (update_record envEcho cfgMain "home.example.com" "2.2.2.2").2 =
      [ApiCall.lookup
        "https://api.cloudflare.com/client/v4/zones/Z/dns_records?type=A&name=home.example.com",
       ApiCall.update "https://api.cloudflare.com/client/v4/zones/Z/dns_records/abc"
        { record_type := "A", name := "home.example.com", content := "2.2.2.2",
          ttl := 1, proxied := false }] ∧
    (update_record envEcho cfgMain "home.example.com" "2.2.2.2").1 =
      .ok { success := true, message := "Updated record home.example.com to IP 2.2.2.2",
            record_id := some "abc" } := by
  have h := update_record_update_branch envEcho cfgMain "home.example.com" "2.2.2.2"
    respFound recAbc rfl rfl rfl (by decide)
  exact ⟨h.1, (h.2.2 wrEcho recAbcNew rfl rfl rfl).1⟩

/-- C4: when the lookup returns zero records, exactly one create call is
issued with the exact body
`{type:"A", name:host, content:ip, ttl:1, proxied:false}` and no update
call is issued; when the create response succeeds with a result record,
the call returns a result whose message conveys "Created" and whose
`record_id` is the created record's identifier from the provider
response. -/
theorem update_record_create_branch (env : Env) (config : ProviderConfig)
    (host ip : String) (resp : CloudflareListResponse)
    (henv : env.listResp = .ok resp) (hsucc : resp.success = true)
    (hempty : resp.result = []) :
    (update_record env config host ip).2 =
      [ApiCall.lookup (CLOUDFLARE_API_BASE ++ "/zones/" ++ config.zone_id ++
          "/dns_records?type=A&name=" ++ host),
       ApiCall.create (CLOUDFLARE_API_BASE ++ "/zones/" ++ config.zone_id ++ "/dns_records")
        { record_type := "A", name := host, content := ip, ttl := 1, proxied := false }] ∧
    hasUpdate (update_record env config host ip).2 = false ∧
    (∀ wr record, env.createResp = .ok wr → wr.success = true → wr.result = some record →
      (update_record env config host ip).1 =
        .ok { success := true,
              message := "Created new record " ++ host ++ " with IP " ++ ip,
              record_id := some record.id } ∧
      containsStr ("Created new record " ++ host ++ " with IP " ++ ip) "Created") := by
  have hok := get_record_fst_ok env config host resp henv hsucc
  rw [hempty] at hok
  simp only [List.head?_nil] at hok
  refine ⟨?_, ?_, ?_⟩
  · cases hcr : (create_record env config host ip).1 <;>
      simp [update_record, hok, hcr, get_record_snd, create_record_snd]
  · cases hcr : (create_record env config host ip).1 <;>
      simp [update_record, hok, hcr, get_record_snd, create_record_snd,
        hasUpdate, ApiCall.isUpdate]
  · intro wr record h1 h2 h3
    have hcrok := create_record_fst_ok env config host ip wr record h1 h2 h3
    refine ⟨?_, ?_⟩
    · simp [update_record, hok, hcrok]
    · exact containsStr_of_left _ (containsStr_of_left _ (containsStr_of_left _ (by decide)))

/-- C4 witness: empty lookup result, provider answers the create with a
record of id `new1`: lookup then one create with the exact body, result
reports the creation with recordId `new1`. -/
theorem update_record_create_branch_witness :
    (update_record envCreate cfgMain "home.example.com" "2.2.2.2").2 =
      [ApiCall.lookup
        "https://api.cloudflare.com/client/v4/zones/Z/dns_records?type=A&name=home.example.com",
       ApiCall.create "https://api.cloudflare.com/client/v4/zones/Z/dns_records"
        { record_type := "A", name := "home.example.com", content := "2.2.2.2",
          ttl := 1, proxied := false }] ∧
    (update_record envCreate cfgMain "home.example.com" "2.2.2.2").1 =
      .ok { success := true, message := "Created new record home.example.com with IP 2.2.2.2",
            record_id := some "new1" } := by
  have h := update_record_create_branch envCreate cfgMain "home.example.com" "2.2.2.2"
    respEmpty rfl rfl rfl
  exact ⟨h.1, (h.2.2 wrFresh recFresh rfl rfl rfl).1⟩

/-- C5: when the lookup response reports `success = false`, the
reconciliation fails with an error that is exactly
"Cloudflare API error: " followed by every `code: message` pair in the
original order joined with ", ", and no create or update call is
attempted. -/
theorem update_record_lookup_api_error (env : Env) (config : ProviderConfig)
    (host ip : String) (resp : CloudflareListResponse)
    (henv : env.listResp = .ok resp) (hfail : resp.success = false) :
    (update_record env config host ip).1 = .error (cloudflareApiError resp.errors) ∧
    (update_record env config host ip).2 =
      [ApiCall.lookup (CLOUDFLARE_API_BASE ++ "/zones/" ++ config.zone_id ++
        "/dns_records?type=A&name=" ++ host)] ∧
    writeCount (update_record env config host ip).2 = 0 ∧
    containsStr (cloudflareApiError resp.errors)
      (String.intercalate ", "
        (resp.errors.map (fun e => toString e.code ++ ": " ++ e.message))) := by
  have herr := get_record_fst_apierr env config host resp henv hfail
  refine ⟨?_, ?_, ?_, ?_⟩
  · simp [update_record, herr, get_record_snd]
  · simp [update_record, herr, get_record_snd]
  · simp [update_record, herr, get_record_snd, writeCount, ApiCall.isWrite]
  · exact containsStr_of_right "Cloudflare API error: " _

/-- C5 witness: a failed lookup with two errors produces the joined
error message in order and issues zero writes. -/
theorem update_record_lookup_api_error_witness :
    (update_record envLookupFail cfgMain "home.example.com" "2.2.2.2").1 =
      .error "Cloudflare API error: 9103: Unknown X-Auth-Key, 10000: Authentication error" ∧
    writeCount (update_record envLookupFail cfgMain "home.example.com" "2.2.2.2").2 = 0 := by
  have h := update_record_lookup_api_error envLookupFail cfgMain "home.example.com" "2.2.2.2"
    respFailed rfl rfl
  exact ⟨h.1.trans (by decide), h.2.2.1⟩

/-- C6: a request whose resolved provider configuration has a
`provider_type` other than the only registered engine name
`"cloudflare"` (having passed IP validation and the access-key check) is
rejected with a bad-request error naming that provider type, with zero
network calls and no engine invocation. -/
theorem update_dns_unsupported_provider (env : Env) (config : Config)
    (pname host ip : String) (query : UpdateQuery) (pc : ProviderConfig)
    (hip : is_valid_ipv4 ip = true)
    (hpc : config.get_provider pname = some pc)
    (hkey : keyAccepted pc query = true)
    (htype : pc.provider_type ≠ "cloudflare") :
    update_dns env config pname host ip query =
      { status := .badRequest,
        body := .err { success := false,
                       error := "Unsupported provider type: " ++ pc.provider_type },
        calls := [], engine_invoked := false } ∧
    containsStr ("Unsupported provider type: " ++ pc.provider_type) pc.provider_type := by
  refine ⟨?_, containsStr_of_right _ _⟩
  simp [update_dns, hip, hpc, hkey, htype]

/-- C6 witness: provider type `nope` with a valid IP and matching key is
rejected as unsupported with an empty call trace. -/
theorem update_dns_unsupported_provider_witness :
    update_dns envIdle { providers := [cfgNope] } "cf" "home.example.com" "1.2.3.4"
      { key := some "secret" } =
      { status := .badRequest,
        body := .err { success := false, error := "Unsupported provider type: nope" },
        calls := [], engine_invoked := false } :=
  (update_dns_unsupported_provider envIdle { providers := [cfgNope] } "cf" "home.example.com"
    "1.2.3.4" { key := some "secret" } cfgNope (by decide) rfl (by decide) (by decide)).1

/-- C7: the lookup issues exactly one GET whose URL carries the
`type=A&name={host}` filters (scoped to address records by exact name);
on a successful response, zero records yield the no-existing-record
outcome `none` rather than an error, and one or more records yield the
first element of the result list. -/
theorem get_record_lookup_shape (env : Env) (config : ProviderConfig) (host : String) :
    (get_record env config host).2 =
      [ApiCall.lookup (CLOUDFLARE_API_BASE ++ "/zones/" ++ config.zone_id ++
        "/dns_records?type=A&name=" ++ host)] ∧
    containsStr (CLOUDFLARE_API_BASE ++ "/zones/" ++ config.zone_id ++
        "/dns_records?type=A&name=" ++ host) ("type=A&name=" ++ host) ∧
    (∀ resp, env.listResp = .ok resp → resp.success = true →
      ((resp.result = [] → (get_record env config host).1 = .ok none) ∧
       (∀ r rest, resp.result = r :: rest → (get_record env config host).1 = .ok (some r)))) := by
  refine ⟨get_record_snd env config host, ?_, ?_⟩
  · refine ⟨(CLOUDFLARE_API_BASE ++ "/zones/" ++ config.zone_id ++ "/dns_records?").data,
      [], ?_⟩
    simp only [String.data_append, List.append_nil, List.append_assoc]
    have hl : ("/dns_records?".data : List Char) ++ ("type=A&name=".data ++ host.data) =
        "/dns_records?type=A&name=".data ++ host.data := by
      rw [← List.append_assoc]
      rfl
    rw [hl]
  · intro resp henv hsucc
    have hok := get_record_fst_ok env config host resp henv hsucc
    constructor
    · intro hnil
      rw [hnil] at hok
      simpa using hok
    · intro r rest hcons
      rw [hcons] at hok
      simpa using hok

/-- C7 witness: on a response listing record `abc`, the lookup returns
that first record. -/
theorem get_record_lookup_shape_witness :
    (get_record envIdle cfgMain "home.example.com").1 = .ok (some recAbc) :=
  ((get_record_lookup_shape envIdle cfgMain "home.example.com").2.2
    respFound rfl rfl).2 recAbc [] rfl

/-- C10: when a create (resp. update) response has `success = true` but
carries no result record, the reconciliation fails with the error
"No result in Cloudflare response" instead of reporting success. -/
theorem update_record_no_result_error (env : Env) (config : ProviderConfig) (host ip : String) :
    (∀ resp wr, env.listResp = .ok resp → resp.success = true → resp.result = [] →
      env.createResp = .ok wr → wr.success = true → wr.result = none →
      (update_record env config host ip).1 = .error "No result in Cloudflare response") ∧
    (∀ resp existing wr, env.listResp = .ok resp → resp.success = true →
      resp.result.head? = some existing → existing.content ≠ ip →
      env.updateResp = .ok wr → wr.success = true → wr.result = none →
      (update_record env config host ip).1 = .error "No result in Cloudflare response") := by
  constructor
  · intro resp wr h1 h2 h3 h4 h5 h6
    have hok := get_record_fst_ok env config host resp h1 h2
    rw [h3] at hok
    simp only [List.head?_nil] at hok
    have hcr := create_record_fst_noresult env config host ip wr h4 h5 h6
    simp [update_record, hok, hcr]
  · intro resp existing wr h1 h2 h3 h4 h5 h6 h7
    have hok := get_record_fst_ok env config host resp h1 h2
    rw [h3] at hok
    have hbeq : (existing.content == ip) = false := by simp [h4]
    have hup := update_existing_record_fst_noresult env config existing.id host ip wr h5 h6 h7
    simp [update_record, hok, hbeq, hup]

/-- C10 witness: a create response with `success = true` and no record
makes the whole reconciliation fail with the no-result error. -/
theorem update_record_no_result_error_witness :
    (update_record envNoResult cfgMain "home.example.com" "2.2.2.2").1 =
      .error "No result in Cloudflare response" :=
  (update_record_no_result_error envNoResult cfgMain "home.example.com" "2.2.2.2").1
    respEmpty wrEmptyRes rfl rfl rfl rfl rfl rfl

/-- C8 counterexample: provider `cfgNope` carries the secret `secret`,
the request supplies exactly that secret and a valid IP, yet the engine
is not invoked (the provider type is unregistered), refuting "the engine
is invoked if and only if the supplied secret equals the configured
secret". -/
theorem update_dns_auth_iff_cex :
    cfgNope.key = some "secret" ∧
    (({ key := some "secret" } : UpdateQuery).key.getD "") = "secret" ∧
    is_valid_ipv4 "1.2.3.4" = true ∧
    (update_dns envIdle { providers := [cfgNope] } "cf" "home.example.com" "1.2.3.4"
      { key := some "secret" }).engine_invoked = false ∧
    (update_dns envIdle { providers := [cfgNope] } "cf" "home.example.com" "1.2.3.4"
      { key := some "secret" }).calls = [] := by
  refine ⟨rfl, rfl, by decide, by decide, by decide⟩

/-- C8 (amended): for a request with a valid address whose resolved
provider carries secret `k`: the engine is invoked only if the supplied
secret (an absent query key compares as `""`) exactly equals `k`;
when additionally the provider type is the registered engine
`"cloudflare"`, the engine is invoked iff the supplied secret equals
`k`; and on mismatch the request is rejected with the authentication
failure (`401` "Invalid key") with no engine or network call. -/
theorem update_dns_auth (env : Env) (config : Config) (pname host ip : String)
    (query : UpdateQuery) (pc : ProviderConfig) (k : String)
    (hip : is_valid_ipv4 ip = true)
    (hpc : config.get_provider pname = some pc)
    (hkey : pc.key = some k) :
    ((update_dns env config pname host ip query).engine_invoked = true →
      query.key.getD "" = k) ∧
    (pc.provider_type = "cloudflare" →
      ((update_dns env config pname host ip query).engine_invoked = true ↔
        query.key.getD "" = k)) ∧
    (query.key.getD "" ≠ k →
      update_dns env config pname host ip query =
        { status := .unauthorized, body := .err { success := false, error := "Invalid key" },
          calls := [], engine_invoked := false }) := by
  by_cases hq : query.key.getD "" = k
  · have hacc : keyAccepted pc query = true := by simp [keyAccepted, hkey, hq]
    refine ⟨fun _ => hq, ?_, fun hne => absurd hq hne⟩
    intro htype
    refine ⟨fun _ => hq, fun _ => ?_⟩
    cases hur : (update_record env pc host ip).1 <;>
      simp [update_dns, hip, hpc, hacc, htype, hur]
  · have hacc : keyAccepted pc query = false := by simp [keyAccepted, hkey, hq]
    have hout : update_dns env config pname host ip query =
        { status := .unauthorized, body := .err { success := false, error := "Invalid key" },
          calls := [], engine_invoked := false } := by
      simp [update_dns, hip, hpc, hacc]
    refine ⟨?_, ?_, fun _ => hout⟩
    · intro hinv
      rw [hout] at hinv
      simp at hinv
    · intro htype
      constructor
      · intro hinv
        rw [hout] at hinv
        simp at hinv
      · intro hq2
        exact absurd hq2 hq

/-- C8 witness: a mismatched key against `cfgMain` is rejected with the
authentication failure and an empty call trace. -/
theorem update_dns_auth_witness :
    update_dns envIdle { providers := [cfgMain] } "cf" "home.example.com" "1.2.3.4"
      { key := some "wrong" } =
      { status := .unauthorized, body := .err { success := false, error := "Invalid key" },
        calls := [], engine_invoked := false } :=
  (update_dns_auth envIdle { providers := [cfgMain] } "cf" "home.example.com" "1.2.3.4"
    { key := some "wrong" } cfgMain "secret" (by decide) rfl rfl).2.2 (by decide)

/-- C9: every successful (`Ok`) return of `update_record`, on any of the
three paths, has `success = true` and a present `record_id`, although
the result type allows both to be absent. -/
theorem update_record_ok_success_and_id (env : Env) (config : ProviderConfig)
    (host ip : String) (r : DnsUpdateResult)
    (h : (update_record env config host ip).1 = .ok r) :
    r.success = true ∧ r.record_id.isSome = true := by
  cases hres : (get_record env config host).1 with
  | error e =>
    have heq : (update_record env config host ip).1 = .error e := by
      simp [update_record, hres]
    rw [heq] at h
    simp at h
  | ok o =>
    cases o with
    | none =>
      cases hcr : (create_record env config host ip).1 with
      | error e =>
        have heq : (update_record env config host ip).1 = .error e := by
          simp [update_record, hres, hcr]
        rw [heq] at h
        simp at h
      | ok record =>
        have heq : (update_record env config host ip).1 =
            .ok { success := true,
                  message := "Created new record " ++ host ++ " with IP " ++ ip,
                  record_id := some record.id } := by
          simp [update_record, hres, hcr]
        rw [heq] at h
        injection h with h
        subst h
        exact ⟨rfl, rfl⟩
    | some existing =>
      cases hc : existing.content == ip with
      | true =>
        have heq : (update_record env config host ip).1 =
            .ok { success := true,
                  message := "Record already up to date with IP " ++ ip,
                  record_id := some existing.id } := by
          simp [update_record, hres, hc]
        rw [heq] at h
        injection h with h
        subst h
        exact ⟨rfl, rfl⟩
      | false =>
        cases hup : (update_existing_record env config existing.id host ip).1 with
        | error e =>
          have heq : (update_record env config host ip).1 = .error e := by
            simp [update_record, hres, hc, hup]
          rw [heq] at h
          simp at h
        | ok record =>
          have heq : (update_record env config host ip).1 =
              .ok { success := true,
                    message := "Updated record " ++ host ++ " to IP " ++ ip,
                    record_id := some record.id } := by
            simp [update_record, hres, hc, hup]
          rw [heq] at h
          injection h with h
          subst h
          exact ⟨rfl, rfl⟩

/-- C9 witness: the already-up-to-date path returns a result with
`success = true` and a present record identifier. -/
theorem update_record_ok_success_and_id_witness :
    ({ success := true, message := "Record already up to date with IP 1.1.1.1",
       record_id := some "abc" } : DnsUpdateResult).success = true ∧
    ({ success := true, message := "Record already up to date with IP 1.1.1.1",
       record_id := some "abc" } : DnsUpdateResult).record_id.isSome = true :=
  update_record_ok_success_and_id envIdle cfgMain "home.example.com" "1.1.1.1" _ rfl
